import Mathlib

/-!
Verification of the fee-resolution logic of
src/ui/pages/SendTransaction/NetworkFee/NetworkFee.tsx
(zerion-wallet-extension).

JavaScript values appearing in fee fields are modelled explicitly:
a JS number is either NaN or a rational (the dyadic floats reachable
here are exact small integers, so rationals are a faithful carrier),
a fee field holds a number or a string, and `undefined` is `Option.none`.
Truthiness and `===`-equality follow the JS semantics: `0`, `NaN` and
the empty string are falsy; `NaN === NaN` is false.
-/

/-- A JavaScript number: `NaN` or an exact rational value. -/
inductive JSNumber where
  | nan : JSNumber
  | val : ℚ → JSNumber
deriving DecidableEq, Repr

/-- JS truthiness of a number: `0` and `NaN` are falsy, everything else truthy. -/
def JSNumber.truthy : JSNumber → Bool
  | .nan => false
  | .val q => decide (q ≠ 0)

/-- JS strict equality `===` on numbers: `NaN` is equal to nothing, including itself. -/
def JSNumber.eqJS : JSNumber → JSNumber → Bool
  | .val a, .val b => decide (a = b)
  | _, _ => false

/-- A JS value as it appears in a transaction fee field: a number or a string. -/
inductive JSValue where
  | num : JSNumber → JSValue
  | str : String → JSValue
deriving DecidableEq, Repr

/-- JS truthiness: a number by `JSNumber.truthy`; a string is truthy iff nonempty. -/
def JSValue.truthy : JSValue → Bool
  | .num n => n.truthy
  | .str s => decide (s ≠ "")

/-- JS `Number(v)` coercion, modelled for the value shapes this code meets:
a number is itself; the empty string is `0`; a nonempty string of decimal
digits is its value; any other string is `NaN`. -/
def JSValue.toNumber : JSValue → JSNumber
  | .num n => n
  | .str s =>
    if s = "" then .val 0
    else match s.toNat? with
      | some n => .val n
      | none => .nan

/-- JS truthiness of an optional field: `undefined` is falsy. -/
def truthyOpt : Option JSValue → Bool
  | none => false
  | some v => v.truthy

/-- JS `Number` applied to an optional field: `Number(undefined)` is `NaN`. -/
def numberOf : Option JSValue → JSNumber
  | none => .nan
  | some v => v.toNumber

/-- IncomingTransaction (src/modules/ethereum/types/IncomingTransaction):
the fee-relevant fields read by NetworkFee.tsx, each optional. `from_`
stands for the JS field `from`. -/
structure IncomingTransaction where
  gasPrice : Option JSValue := none
  maxFeePerGas : Option JSValue := none
  maxPriorityFeePerGas : Option JSValue := none
  gas : Option JSValue := none
  from_ : Option String := none
deriving DecidableEq, Repr

/-- Modelled from the spec: `getGas` (src/modules/ethereum/transactions/getGas)
is not among the sources; per the spec the transaction "carries ... an
estimated gas amount", which `getGas` looks up on the transaction. -/
def getGas (transaction : IncomingTransaction) : Option JSValue :=
  transaction.gas

/-- EIP1559 (src/modules/ethereum/transactions/gasPrices/EIP1559),
modelled from the spec: a tier holds "a FeeBasis-shaped value plus an
optional `estimationSeconds`"; the fields read by NetworkFee.tsx are
`max_fee`, `priority_fee` and `estimation_seconds`. -/
structure EIP1559 where
  priority_fee : JSNumber
  max_fee : JSNumber
  estimation_seconds : Option JSNumber := none
deriving DecidableEq, Repr

/-- GasPriceObject (src/modules/ethereum/transactions/gasPrices/GasPriceObject):
optional `classic` price and optional `eip1559` pair. -/
structure GasPriceObject where
  classic : Option JSNumber := none
  eip1559 : Option EIP1559 := none
deriving DecidableEq, Repr

/-- getGasPriceFromTransaction (NetworkFee.tsx lines 24-43): classic basis
when the estimated gas and a legacy gasPrice are both truthy, else EIP-1559
basis when both 1559 fields are truthy, else null. -/
def getGasPriceFromTransaction (transaction : IncomingTransaction) :
    Option GasPriceObject :=
  let gasPrice := transaction.gasPrice
  let maxFeePerGas := transaction.maxFeePerGas
  let maxPriorityFeePerGas := transaction.maxPriorityFeePerGas
  let estimatedGas := getGas transaction
  if truthyOpt estimatedGas && truthyOpt gasPrice then
    some { classic := some (numberOf gasPrice) }
  else if truthyOpt maxPriorityFeePerGas && truthyOpt maxFeePerGas then
    some { eip1559 := some { priority_fee := numberOf maxPriorityFeePerGas,
                             max_fee := numberOf maxFeePerGas } }
  else
    none

/-- The keys of ChainGasPrice.info, i.e. the fee-tier kinds. -/
inductive FeeType where
  | classic : FeeType
  | eip1559 : FeeType
  | optimistic : FeeType
deriving DecidableEq, Repr

/-- getFeeTypeTitle (NetworkFee.tsx lines 45-54): undefined for no type and
for classic, fixed labels for eip1559 and optimistic. -/
def getFeeTypeTitle : Option FeeType → Option String
  | none => none
  | some .classic => none
  | some .eip1559 => some "EIP-1559"
  | some .optimistic => some "Optimistic"

/-- EIP1559GasPrices (src/modules/ethereum/transactions/gasPrices/requests),
modelled from the spec: "a named set of tiers {rapid, fast, standard, slow},
each optionally present". -/
structure EIP1559GasPrices where
  rapid : Option EIP1559 := none
  fast : Option EIP1559 := none
  standard : Option EIP1559 := none
  slow : Option EIP1559 := none
deriving DecidableEq, Repr

/-- Classic gas prices, modelled from the spec: the same four optional tiers,
each a single price-per-gas-unit number. -/
structure ClassicGasPrices where
  rapid : Option JSNumber := none
  fast : Option JSNumber := none
  standard : Option JSNumber := none
  slow : Option JSNumber := none
deriving DecidableEq, Repr

/-- ChainGasPrice.info, modelled from the spec and the accesses in
NetworkFee.tsx: optional classic and eip1559 tier sets (the optimistic
entry is never read by this code and is not modelled). -/
structure ChainGasPriceInfo where
  classic : Option ClassicGasPrices := none
  eip1559 : Option EIP1559GasPrices := none
deriving DecidableEq, Repr

/-- ChainGasPrice (src/modules/ethereum/transactions/gasPrices/requests):
the per-chain snapshot whose `info` field NetworkFee.tsx reads. -/
structure ChainGasPrice where
  info : ChainGasPriceInfo
deriving DecidableEq, Repr

/-- isMatch (NetworkFee.tsx lines 109-111, local to findMatchingEip1559):
strict equality of `max_fee` and of `priority_fee`. -/
def isMatch (value1 value2 : EIP1559) : Bool :=
  value1.max_fee.eqJS value2.max_fee && value1.priority_fee.eqJS value2.priority_fee

/-- findMatchingEip1559 (NetworkFee.tsx lines 105-116): list the tiers in
the order [rapid, fast, standard, slow], drop the absent ones, and return
the first whose fee pair matches the target. -/
def findMatchingEip1559 (eip1559GasPrices : EIP1559GasPrices)
    (eip1559 : EIP1559) : Option EIP1559 :=
  ([eip1559GasPrices.rapid, eip1559GasPrices.fast,
    eip1559GasPrices.standard, eip1559GasPrices.slow].filterMap id).find?
    (fun eip1559Info => isMatch eip1559Info eip1559)

/-- formatSeconds (src/shared/units/formatSeconds), modelled from the spec:
a "duration formatter (seconds → display string)"; only the fact that it
yields some string matters to this code. -/
def formatSeconds : JSNumber → String
  | .nan => "NaNs"
  | .val q => toString q ++ "s"

/-- The `time` memo of NetworkFee (NetworkFee.tsx lines 102-126): when the
transaction's own extracted basis is EIP-1559 and the chain snapshot has
EIP-1559 tier data, look up the matching tier; if its estimation seconds
are truthy, produce the approximate-duration string, else nothing. The
chain snapshot is optional because the query may not have resolved. -/
def networkFeeTime (transaction : IncomingTransaction)
    (chainGasPrices : Option ChainGasPrice) : Option String :=
  match (getGasPriceFromTransaction transaction).bind GasPriceObject.eip1559,
      chainGasPrices.bind (fun c => c.info.eip1559) with
  | some txEip1559, some chainEip1559 =>
    let eip1559Info := findMatchingEip1559 chainEip1559 txEip1559
    let seconds := eip1559Info.bind EIP1559.estimation_seconds
    match seconds with
    | some s => if s.truthy then some ("~" ++ formatSeconds s) else none
    | none => none
  | _, _ => none

/-- The fallback basis built inline in NetworkFee.tsx lines 94-97:
`classic` from the classic fast tier, `eip1559` from the eip1559 fast tier,
each via optional chaining. -/
def fallbackGasPrice (chainGasPrices : ChainGasPrice) : GasPriceObject :=
  { classic := chainGasPrices.info.classic.bind ClassicGasPrices.fast,
    eip1559 := chainGasPrices.info.eip1559.bind EIP1559GasPrices.fast }

/-- The argument record NetworkFee passes to getNetworkFeeEstimation
(NetworkFee.tsx lines 90-98). -/
structure EstimationRequest where
  transaction : IncomingTransaction
  address : Option String
  gas : JSNumber
  gasPrices : ChainGasPrice
  gasPrice : GasPriceObject
deriving DecidableEq, Repr

/-- The NetworkFee orchestration up to the fee-estimation call
(NetworkFee.tsx lines 63-98): throw when the gas amount is falsy, else
assemble the estimation request, with the transaction-derived basis when
one exists and the fast-tier fallback otherwise. -/
def networkFeeEstimationRequest (transaction : IncomingTransaction)
    (chainGasPrices : ChainGasPrice) : Except String EstimationRequest :=
  let gas := getGas transaction
  if truthyOpt gas = false then
    Except.error "gas field is expected to be found on Transaction object"
  else
    let gasPriceFromTransaction := getGasPriceFromTransaction transaction
    Except.ok
      { transaction := transaction
        address := match transaction.from_ with
          | some s => if s = "" then none else some s
          | none => none
        gas := numberOf gas
        gasPrices := chainGasPrices
        gasPrice := gasPriceFromTransaction.getD (fallbackGasPrice chainGasPrices) }

/-- FeeEstimation, the collaborator's result (spec section 3): "a fee value
in base units, tagged with the basis kind used". -/
structure FeeEstimation where
  value : ℚ
  type : FeeType
deriving DecidableEq, Repr

/-- An asset price record; `value` is the fiat price per whole unit. -/
structure AssetPrice where
  value : ℚ
deriving DecidableEq, Repr

/-- The native asset as consumed here (spec section 6:
`getNativeAsset(chain) → {decimals, price?}`). -/
structure NativeAsset where
  decimals : ℕ
  price : Option AssetPrice := none
deriving DecidableEq, Repr

/-- Modelled from the spec: `getDecimals` (src/modules/networks/asset) is
not among the sources; it yields "the asset's decimal precision". -/
def getDecimals (asset : NativeAsset) : ℕ :=
  asset.decimals

/-- Modelled from the spec: `baseToCommon` (src/shared/units/convert) is not
among the sources; per spec section 4.4 it converts "base units → common
(whole-unit) quantity using the asset's decimal exponent". -/
def baseToCommon (value : ℚ) (decimals : ℕ) : ℚ :=
  value / (10 : ℚ) ^ decimals

/-- The result of the fiatValue memo: `undefinedValue` for the bare `return`
(missing data), `null` for the explicit `return null` (price unknown),
or a fiat amount. -/
inductive FiatValue where
  | undefinedValue : FiatValue
  | null : FiatValue
  | val : ℚ → FiatValue
deriving DecidableEq, Repr

/-- The fiatValue memo of NetworkFee (NetworkFee.tsx lines 128-141):
undefined while asset or estimation is missing, the explicit null when the
asset has no price, otherwise the common-unit quantity times the price. -/
def fiatValue (nativeAsset : Option NativeAsset)
    (feeEstimation : Option FeeEstimation) : FiatValue :=
  match nativeAsset, feeEstimation with
  | some asset, some estimation =>
    let commonQuantity := baseToCommon estimation.value (getDecimals asset)
    match asset.price with
    | none => .null
    | some price => .val (commonQuantity * price.value)
  | _, _ => .undefinedValue

/-! Theorems. -/

theorem find_eq_some_within_first_match {α : Type} (p : α → Bool) (l₁ l₂ : List α) (r : α)
    (h₁ : ∀ e ∈ l₁, p e = false) (hr : p r = true) :
    (l₁ ++ r :: l₂).find? p = some r := by
  induction l₁ with
  | nil => simpa using List.find?_cons_of_pos (p := p) l₂ hr
  | cons a as ih =>
    have ha : p a = false := h₁ a (by simp)
    rw [List.cons_append, List.find?_cons_of_neg]
    · exact ih (fun e he => h₁ e (by simp [he]))
    · simp [ha]

/-- C1: when the estimated gas and a legacy gasPrice are both truthy,
getGasPriceFromTransaction returns the classic basis with
pricePerGasUnit = Number(gasPrice) and no eip1559 entry, whatever the
EIP-1559 fields hold (classic takes precedence). -/
theorem getGasPriceFromTransaction_classic (t : IncomingTransaction)
    (hg : truthyOpt (getGas t) = true) (hp : truthyOpt t.gasPrice = true) :
    getGasPriceFromTransaction t =
      some { classic := some (numberOf t.gasPrice), eip1559 := none } := by
  unfold getGasPriceFromTransaction
  simp [hg, hp]

theorem getGasPriceFromTransaction_classic_witness :
    getGasPriceFromTransaction
      { gasPrice := some (.num (.val 50000000000)),
        maxFeePerGas := some (.num (.val 60000000000)),
        maxPriorityFeePerGas := some (.num (.val 2000000000)),
        gas := some (.str "21000") } =
      some { classic := some (JSNumber.val 50000000000), eip1559 := none } :=
  (getGasPriceFromTransaction_classic _ (by decide) (by decide)).trans (by decide)

/-- C3: when the classic condition fails but both EIP-1559 fields are truthy,
getGasPriceFromTransaction returns the eip1559 basis with the two fields
converted via Number. -/
theorem getGasPriceFromTransaction_eip1559 (t : IncomingTransaction)
    (hc : (truthyOpt (getGas t) && truthyOpt t.gasPrice) = false)
    (hp : truthyOpt t.maxPriorityFeePerGas = true)
    (hm : truthyOpt t.maxFeePerGas = true) :
    getGasPriceFromTransaction t =
      some { classic := none,
             eip1559 := some { priority_fee := numberOf t.maxPriorityFeePerGas,
                               max_fee := numberOf t.maxFeePerGas,
                               estimation_seconds := none } } := by
  unfold getGasPriceFromTransaction
  simp [hc, hp, hm]

theorem getGasPriceFromTransaction_eip1559_witness :
    getGasPriceFromTransaction
      { maxFeePerGas := some (.num (.val 60000000000)),
        maxPriorityFeePerGas := some (.num (.val 2000000000)) } =
      some { classic := none,
             eip1559 := some { priority_fee := JSNumber.val 2000000000,
                               max_fee := JSNumber.val 60000000000,
                               estimation_seconds := none } } :=
  (getGasPriceFromTransaction_eip1559 _ (by decide) (by decide) (by decide)).trans
    (by decide)

/-- C4: when neither the classic condition nor the EIP-1559 condition holds,
getGasPriceFromTransaction returns null, with no error and no default. -/
theorem getGasPriceFromTransaction_none (t : IncomingTransaction)
    (hc : (truthyOpt (getGas t) && truthyOpt t.gasPrice) = false)
    (he : (truthyOpt t.maxPriorityFeePerGas && truthyOpt t.maxFeePerGas) = false) :
    getGasPriceFromTransaction t = none := by
  unfold getGasPriceFromTransaction
  simp [hc, he]

theorem getGasPriceFromTransaction_none_witness :
    getGasPriceFromTransaction { gas := some (.str "21000") } = none :=
  getGasPriceFromTransaction_none _ (by decide) (by decide)

/-- C6: getFeeTypeTitle is total over the four inputs and returns exactly
undefined, undefined, "EIP-1559" and "Optimistic" for none, classic,
eip1559 and optimistic respectively. -/
theorem getFeeTypeTitle_spec :
    getFeeTypeTitle none = none ∧
    getFeeTypeTitle (some FeeType.classic) = none ∧
    getFeeTypeTitle (some FeeType.eip1559) = some "EIP-1559" ∧
    getFeeTypeTitle (some FeeType.optimistic) = some "Optimistic" := by
  decide

/-- C10: field presence is truthiness, so a numeric 0 counts as absent:
with gasPrice the number 0 the classic branch is skipped (any returned
basis is eip1559-shaped), and with maxPriorityFeePerGas the number 0 (and
the classic condition failing) no basis at all is returned. -/
theorem getGasPriceFromTransaction_zero_falsy :
    (∀ t : IncomingTransaction, truthyOpt (getGas t) = true →
      t.gasPrice = some (JSValue.num (JSNumber.val 0)) →
      getGasPriceFromTransaction t = none ∨
        ∃ e, getGasPriceFromTransaction t =
          some { classic := none, eip1559 := some e }) ∧
    (∀ t : IncomingTransaction,
      (truthyOpt (getGas t) && truthyOpt t.gasPrice) = false →
      truthyOpt t.maxFeePerGas = true →
      t.maxPriorityFeePerGas = some (JSValue.num (JSNumber.val 0)) →
      getGasPriceFromTransaction t = none) := by
  constructor
  · intro t _ h0
    have hp : truthyOpt t.gasPrice = false := by rw [h0]; decide
    unfold getGasPriceFromTransaction
    cases hb : truthyOpt t.maxPriorityFeePerGas && truthyOpt t.maxFeePerGas with
    | false => left; simp [hp, hb]
    | true =>
      right
      refine ⟨{ priority_fee := numberOf t.maxPriorityFeePerGas,
                max_fee := numberOf t.maxFeePerGas }, ?_⟩
      simp [hp, hb]
  · intro t hc _ h0
    have hp : truthyOpt t.maxPriorityFeePerGas = false := by rw [h0]; decide
    unfold getGasPriceFromTransaction
    simp [hc, hp]

theorem getGasPriceFromTransaction_zero_falsy_witness :
    getGasPriceFromTransaction
      { gasPrice := some (.num (.val 0)),
        maxFeePerGas := some (.num (.val 30)),
        maxPriorityFeePerGas := some (.num (.val 0)),
        gas := some (.num (.val 21000)) } = none :=
  getGasPriceFromTransaction_zero_falsy.2 _ (by decide) (by decide) rfl

/-- C2: findMatchingEip1559 walks the candidates in the fixed order
[rapid, fast, standard, slow] with absent entries dropped: it returns the
first present tier whose fee pair equals the target's, returns none when
no present tier matches, and in particular returns the rapid tier whenever
it is present and matches (first-match-wins under ties with fast). -/
theorem findMatchingEip1559_spec (g : EIP1559GasPrices) (target : EIP1559) :
    (∀ l₁ r l₂,
      [g.rapid, g.fast, g.standard, g.slow].filterMap id = l₁ ++ r :: l₂ →
      (∀ e ∈ l₁, isMatch e target = false) →
      isMatch r target = true →
      findMatchingEip1559 g target = some r) ∧
    ((∀ e ∈ [g.rapid, g.fast, g.standard, g.slow].filterMap id,
        isMatch e target = false) →
      findMatchingEip1559 g target = none) ∧
    (∀ r, g.rapid = some r → isMatch r target = true →
      findMatchingEip1559 g target = some r) := by
  refine ⟨?_, ?_, ?_⟩
  · intro l₁ r l₂ hdec h₁ hr
    unfold findMatchingEip1559
    rw [hdec]
    exact find_eq_some_within_first_match _ l₁ l₂ r h₁ hr
  · intro hall
    unfold findMatchingEip1559
    refine List.find?_eq_none.mpr ?_
    intro x hx
    simp [hall x hx]
  · intro r hrapid hr
    unfold findMatchingEip1559
    rw [hrapid, List.filterMap_cons]
    exact List.find?_cons_of_pos _ hr

theorem findMatchingEip1559_spec_witness :
    findMatchingEip1559
      { rapid := some ⟨.val 1, .val 10, some (.val 5)⟩,
        fast := some ⟨.val 1, .val 10, some (.val 10)⟩ }
      ⟨.val 1, .val 10, none⟩ =
      some ⟨JSNumber.val 1, JSNumber.val 10, some (JSNumber.val 5)⟩ :=
  (findMatchingEip1559_spec _ _).2.2 _ rfl (by decide)

/-- C5: when the transaction's gas amount is falsy, the NetworkFee
orchestration throws the missing-gas error before any fee work. -/
theorem networkFee_missing_gas (t : IncomingTransaction) (cg : ChainGasPrice)
    (h : truthyOpt (getGas t) = false) :
    networkFeeEstimationRequest t cg =
      Except.error "gas field is expected to be found on Transaction object" := by
  unfold networkFeeEstimationRequest
  simp [h]

theorem networkFee_missing_gas_witness :
    networkFeeEstimationRequest {} ⟨{}⟩ =
      Except.error "gas field is expected to be found on Transaction object" :=
  networkFee_missing_gas _ _ (by decide)

/-- C8: whenever the orchestration runs (gas truthy), the estimation call
receives the transaction-derived basis when one exists, and otherwise the
fallback built from the chain's fast tiers (classic from info.classic.fast,
eip1559 from info.eip1559.fast). -/
theorem networkFee_basis_selection (t : IncomingTransaction)
    (cg : ChainGasPrice) (h : truthyOpt (getGas t) = true) :
    ∃ req, networkFeeEstimationRequest t cg = Except.ok req ∧
      (∀ b, getGasPriceFromTransaction t = some b → req.gasPrice = b) ∧
      (getGasPriceFromTransaction t = none →
        req.gasPrice = fallbackGasPrice cg) := by
  unfold networkFeeEstimationRequest
  dsimp only
  rw [h]
  refine ⟨_, rfl, ?_, ?_⟩
  · intro b hb
    simp [hb]
  · intro hn
    simp [hn]

theorem networkFee_basis_selection_witness :
    (networkFeeEstimationRequest
        { gasPrice := some (.num (.val 50000000000)),
          gas := some (.num (.val 21000)) }
        ⟨⟨some { fast := some (.val 40000000000) }, none⟩⟩).toOption.map
      EstimationRequest.gasPrice =
      some { classic := some (JSNumber.val 50000000000), eip1559 := none } := by
  obtain ⟨req, hreq, hsome, -⟩ := networkFee_basis_selection
    { gasPrice := some (.num (.val 50000000000)),
      gas := some (.num (.val 21000)) }
    ⟨⟨some { fast := some (.val 40000000000) }, none⟩⟩ (by decide)
  have hgp : req.gasPrice = { classic := some (JSNumber.val 50000000000),
                              eip1559 := none } :=
    hsome _ (by decide)
  rw [hreq]
  simp [Except.toOption, hgp]

/-- C7: with asset and estimation present, the fiat value is the base-unit
fee divided by 10^decimals times the asset price; with the price absent the
result is the explicit null marker, a value distinct from the undefined
(missing-data) result and from every numeric amount, in particular 0. -/
theorem fiatValue_spec (asset : NativeAsset) (estimation : FeeEstimation) :
    (∀ p, asset.price = some p →
      fiatValue (some asset) (some estimation) =
        FiatValue.val (estimation.value / (10 : ℚ) ^ asset.decimals * p.value)) ∧
    (asset.price = none →
      fiatValue (some asset) (some estimation) = FiatValue.null) ∧
    (FiatValue.null ≠ FiatValue.undefinedValue ∧
      ∀ q : ℚ, FiatValue.null ≠ FiatValue.val q) := by
  refine ⟨?_, ?_, ?_, ?_⟩
  · intro p hp
    unfold fiatValue baseToCommon getDecimals
    simp [hp]
  · intro hp
    unfold fiatValue
    simp [hp]
  · intro h
    cases h
  · intro q h
    cases h

theorem fiatValue_spec_witness :
    fiatValue (some ⟨18, some ⟨2000⟩⟩)
        (some ⟨1000000000000000000, FeeType.classic⟩) =
      FiatValue.val 2000 := by
  have h := (fiatValue_spec ⟨18, some ⟨2000⟩⟩
    ⟨1000000000000000000, FeeType.classic⟩).1 ⟨2000⟩ rfl
  rw [h]
  congr 1
  norm_num

/-- C9 counterexample: the claim requires a positive estimationSeconds for
a time string, but the code only tests truthiness: with the matched rapid
tier holding estimationSeconds = -1, a time string is produced although -1
is not positive. -/
theorem networkFeeTime_positive_cex :
    (networkFeeTime
      { maxFeePerGas := some (.num (.val 10)),
        maxPriorityFeePerGas := some (.num (.val 1)) }
      (some ⟨⟨none,
        some { rapid := some ⟨.val 1, .val 10, some (.val (-1))⟩ }⟩⟩)).isSome
      = true ∧
    findMatchingEip1559
      { rapid := some ⟨.val 1, .val 10, some (.val (-1))⟩ }
      ⟨JSNumber.val 1, JSNumber.val 10, none⟩ =
      some ⟨JSNumber.val 1, JSNumber.val 10, some (JSNumber.val (-1))⟩ ∧
    ¬ ((0 : ℚ) < -1) := by
  refine ⟨by decide, by decide, by norm_num⟩

/-- C9 (amended): a confirmation-time string is produced exactly when the
transaction's own extracted basis is the Eip1559 variant (the fallback
basis never feeds time estimation), the chain snapshot's EIP-1559 tier
data is present, some tier matches it, and that tier's estimationSeconds
is present and truthy (nonzero and non-NaN — negative values included);
when it is 0, NaN or absent, no string is produced. -/
theorem networkFeeTime_iff (t : IncomingTransaction)
    (cg : Option ChainGasPrice) :
    (networkFeeTime t cg).isSome = true ↔
      ∃ target chainEip r s,
        (getGasPriceFromTransaction t).bind GasPriceObject.eip1559 =
          some target ∧
        cg.bind (fun c => c.info.eip1559) = some chainEip ∧
        findMatchingEip1559 chainEip target = some r ∧
        r.estimation_seconds = some s ∧
        s.truthy = true := by
  unfold networkFeeTime
  cases htx : (getGasPriceFromTransaction t).bind GasPriceObject.eip1559 with
  | none =>
    simp [htx]
  | some target =>
    cases hcg : cg.bind (fun c => c.info.eip1559) with
    | none =>
      simp [htx, hcg]
    | some chainEip =>
      simp only [htx, hcg]
      cases hfind : findMatchingEip1559 chainEip target with
      | none =>
        simp [hfind]
      | some r =>
        cases hsec : r.estimation_seconds with
        | none =>
          simp [hfind, hsec]
        | some s =>
          cases hs : s.truthy with
          | false =>
            simp [hfind, hsec, hs]
          | true =>
            simp [hfind, hsec, hs]

theorem networkFeeTime_iff_witness :
    (networkFeeTime
      { maxFeePerGas := some (.num (.val 10)),
        maxPriorityFeePerGas := some (.num (.val 1)) }
      (some ⟨⟨none,
        some { rapid := some ⟨.val 1, .val 10, some (.val 5)⟩ }⟩⟩)).isSome
      = true :=
  (networkFeeTime_iff _ _).mpr
    ⟨⟨JSNumber.val 1, JSNumber.val 10, none⟩,
     { rapid := some ⟨.val 1, .val 10, some (.val 5)⟩ },
     ⟨JSNumber.val 1, JSNumber.val 10, some (JSNumber.val 5)⟩,
     JSNumber.val 5,
     by decide, rfl, by decide, rfl, by decide⟩
